import Mathlib

/-!
Shallow embedding of the ChatQWen chat-completion client
(`bisheng_langchain/chat_models/qwen.py`): the message/wire converters, the
retry and backoff configuration, the raw-HTTP response classification, the
SDK streaming reassembly loop, the streamed tool-call accumulation, and the
tiktoken-based message token counting.
-/

/-- A wire `function_call` payload: a function name and its arguments as text. -/
structure FunctionCall where
  name : String
  arguments : String
deriving DecidableEq

/-- One entry of a wire `tool_calls` list. The streaming accumulator in
`_agenerate` reads `entry['arguments']` at the top level of the entry. -/
structure ToolCall where
  id : String
  name : String
  arguments : String
deriving DecidableEq

/-- The langchain message variants handled by `_convert_message_to_dict`:
`HumanMessage`, `AIMessage`, `SystemMessage`, `FunctionMessage`, `ToolMessage`
and the generic `ChatMessage`. `extraName` models `additional_kwargs['name']`;
for `ai`, `functionCall` and `toolCalls` model
`additional_kwargs['function_call']` and `additional_kwargs['tool_calls']`. -/
inductive Message where
  | human (content : String) (extraName : Option String)
  | ai (content : String) (functionCall : Option FunctionCall)
       (toolCalls : Option (List ToolCall)) (extraName : Option String)
  | system (content : String) (extraName : Option String)
  | function (content : String) (name : String) (extraName : Option String)
  | tool (content : String) (toolCallId : String) (extraName : Option String)
  | chat (role : String) (content : String) (extraName : Option String)
deriving DecidableEq

/-- The wire message dict. `none` models an absent key (the source also uses a
present key with JSON null only for assistant `content`; both reach the same
`or ''` fallback in `_convert_dict_to_message`, so a single `Option` layer is
faithful for every path a claim exercises). -/
structure WireMessage where
  role : String
  content : Option String := none
  name : Option String := none
  functionCall : Option FunctionCall := none
  toolCalls : Option (List ToolCall) := none
  toolCallId : Option String := none
deriving DecidableEq

/-- `_convert_message_to_dict` (qwen.py lines 65-94). Note the trailing
`if 'name' in message.additional_kwargs` copy runs after every branch, so for a
`FunctionMessage` an `additional_kwargs['name']` overwrites the message's own
`name` field on the wire. -/
def convert_message_to_dict : Message → WireMessage
  | .human c n => { role := "user", content := some c, name := n }
  | .ai c fc tc n =>
      { role := "assistant", content := some c, functionCall := fc,
        toolCalls := tc, name := n }
  | .system c n => { role := "system", content := some c, name := n }
  | .function c fname n =>
      { role := "function", content := some c, name := some (n.getD fname) }
  | .tool c tid n =>
      { role := "tool", content := some c, toolCallId := some tid, name := n }
  | .chat r c n => { role := r, content := some c, name := n }

/-- `_convert_dict_to_message` (qwen.py lines 97-116). Returns `none` where the
Python raises (a missing `content`, a `function` message without `name`, a
`tool` message without `tool_call_id`). For role `assistant` the source uses
`_dict['content'] or ''`, mapping a null content to the empty string, and it
never copies a wire `name` back into `additional_kwargs`. -/
def convert_dict_to_message (w : WireMessage) : Option Message :=
  if w.role = "user" then
    w.content.map (fun c => .human c none)
  else if w.role = "assistant" then
    some (.ai (w.content.getD "") w.functionCall w.toolCalls none)
  else if w.role = "system" then
    w.content.map (fun c => .system c none)
  else if w.role = "function" then
    match w.content, w.name with
    | some c, some n => some (.function c n none)
    | _, _ => none
  else if w.role = "tool" then
    match w.content, w.toolCallId with
    | some c, some t => some (.tool c t none)
    | _, _ => none
  else
    w.content.map (fun c => .chat w.role c none)

/-- The `additional_kwargs['name']` metadata of a message. -/
def Message.extraNameOf : Message → Option String
  | .human _ n => n
  | .ai _ _ _ n => n
  | .system _ n => n
  | .function _ _ n => n
  | .tool _ _ n => n
  | .chat _ _ n => n

/-- The role strings with dedicated branches in `_convert_dict_to_message`. -/
def reservedRole (r : String) : Bool :=
  r = "user" || r = "assistant" || r = "system" || r = "function" || r = "tool"

/-- True unless the message is a generic `ChatMessage` whose role string
collides with one of the dedicated role branches of the wire decoder. -/
def Message.passthroughSafe : Message → Bool
  | .chat r _ _ => !(reservedRole r)
  | _ => true

/-! ## Retry engine (`_create_retry_decorator`, qwen.py lines 50-62)

The decorator configures tenacity with `reraise=True`,
`stop=stop_after_attempt(max_retries)`, `wait=wait_exponential(multiplier=1,
min=1, max=20)` and `retry=retry_if_exception_type(Exception)` (every
exception retried). -/

/-- The tenacity retry loop with `reraise=True`: `call` is invoked with the
1-based attempt number; tenacity stops — re-raising the last error unchanged —
once the failed attempt's number reaches `max_attempts`, which is carried here
as `remaining = max_attempts - attempt`, the number of further attempts still
permitted after the current one. Returns the outcome paired with the final
attempt number; attempts are numbered 1, 2, ... consecutively, so the final
attempt number is the number of transport invocations. -/
def retryGo (call : Nat → Except E A) (attempt remaining : Nat) :
    Except E A × Nat :=
  match call attempt, remaining with
  | .ok a, _ => (.ok a, attempt)
  | .error e, 0 => (.error e, attempt)
  | .error _, r + 1 => retryGo call (attempt + 1) r

/-- The retry-wrapped transport call: attempts start at 1, so `maxAttempts - 1`
further attempts are permitted after the first (the first attempt always runs,
as in tenacity's `stop_after_attempt`). -/
def completion_with_retry_loop (call : Nat → Except E A) (maxAttempts : Nat) :
    Except E A × Nat :=
  retryGo call 1 (maxAttempts - 1)

deriving instance DecidableEq for Except

/-- tenacity `wait_exponential(multiplier, min, max, exp_base=2)` evaluated at
the attempt number that just failed:
`max(min, min(multiplier * exp_base^(attempt_number - 1), max))`. -/
def wait_exponential (multiplier min_seconds max_seconds exp_base
    attempt_number : Nat) : Nat :=
  max min_seconds (min (multiplier * exp_base ^ (attempt_number - 1)) max_seconds)

/-- The sleep inserted before attempt `i` (for `i ≥ 2`): the wait is computed
after attempt `i - 1` fails, with the constants of `_create_retry_decorator`
(`multiplier=1`, `min_seconds=1`, `max_seconds=20`, default `exp_base=2`). -/
def backoffBefore (i : Nat) : Nat :=
  wait_exponential 1 1 20 2 (i - 1)

/-! ## Raw-HTTP response classification (`completion_with_retry`,
qwen.py lines 238-248) -/

/-- One entry of the wire `output.choices` list. -/
structure WireChoice where
  finish_reason : Option String := none
  message : WireMessage
deriving DecidableEq

/-- The wire `output` envelope. -/
structure WireOutput where
  choices : List WireChoice
deriving DecidableEq

/-- The wire `usage` record, with DashScope field names (`input_tokens` are the
prompt tokens, `output_tokens` the completion tokens). -/
structure TokenUsage where
  input_tokens : Nat
  output_tokens : Nat
  total_tokens : Nat
deriving DecidableEq

/-- The parsed JSON body of a raw-HTTP generation response; `none` models an
absent key. -/
structure RspDict where
  code : Option String := none
  message : Option String := none
  output : Option WireOutput := none
  usage : Option TokenUsage := none
deriving DecidableEq

/-- Failures of the response classification: `remote m` models
`raise Exception(message)` with the remote-supplied text, `keyError k` a Python
`KeyError` on a missing dict key. -/
inductive QwenError where
  | remote (message : String)
  | keyError (key : String)
deriving DecidableEq

/-- The response classification of `completion_with_retry`: the code
`DataInspectionFailed` synthesizes a successful single-choice output (role
`assistant`, content the remote message, finish reason `stop`) with the fixed
usage `input_tokens=1, output_tokens=1, total_tokens=2`; otherwise a response
without an `output` envelope raises with the remote message; otherwise the
output is returned with `rsp_dict.get('usage', '')` (absent modelled as
`none`). -/
def classifyResponse (rsp : RspDict) : Except QwenError (WireOutput × Option TokenUsage) :=
  if rsp.code = some "DataInspectionFailed" then
    match rsp.message with
    | some m =>
        .ok (WireOutput.mk
              [{ finish_reason := some "stop",
                 message := { role := "assistant", content := some m } }],
             some (TokenUsage.mk 1 1 2))
    | none => .error (.keyError "message")
  else
    match rsp.output with
    | some out => .ok (out, rsp.usage)
    | none =>
        match rsp.message with
        | some m => .error (.remote m)
        | none => .error (.keyError "message")

/-- One generation of a `ChatResult`. -/
structure ChatGeneration where
  message : Message
deriving DecidableEq

/-- A `ChatResult`: the generations plus the `llm_output` fields
`token_usage` and `model_name`. -/
structure ChatResult where
  generations : List ChatGeneration
  token_usage : Option TokenUsage := none
  model_name : String := ""
deriving DecidableEq

/-- `_create_chat_result` (qwen.py lines 420-428): each choice's message is
converted back into a langchain message; `none` models the Python exception a
failing conversion would raise. -/
def create_chat_result (model_name : String) (response : WireOutput)
    (usage : Option TokenUsage) : Option ChatResult :=
  (response.choices.mapM (fun c => convert_dict_to_message c.message)).map
    (fun msgs =>
      { generations := msgs.map ChatGeneration.mk,
        token_usage := usage, model_name := model_name })

/-! ## SDK streaming reassembly (`_generate_with_sdk`, qwen.py lines 324-338) -/

/-- One streamed chunk as seen by the SDK loop: the status code, the first
choice's incremental `role` and `content` (absent modelled as `none`; the
source's `token or ''` maps both an absent and a null content to `""`), and the
error `code`/`message` used when the status is not 200. -/
structure StreamChunk where
  status_code : Nat
  role : Option String := none
  content : Option String := none
  code : String := ""
  message : String := ""
deriving DecidableEq

/-- The SDK streaming loop state transition: starting from an accumulated
`inner_completion` and current `role`, each 200-status chunk updates the role
(carried forward when absent) and appends its content token; any other status
raises `Exception` with the chunk's code and message. -/
def sdkStreamFold : List StreamChunk → String → String →
    Except (String × String) (String × String)
  | [], inner_completion, role => .ok (inner_completion, role)
  | c :: rest, inner_completion, role =>
      if c.status_code = 200 then
        sdkStreamFold rest (inner_completion ++ c.content.getD "") (c.role.getD role)
      else
        .error (c.code, c.message)

/-- The role after a run of chunks: each chunk's role when present, otherwise
carried forward. -/
def roleCarry (chunks : List StreamChunk) (role : String) : String :=
  chunks.foldl (fun r c => c.role.getD r) role

/-! ## Streamed tool-call accumulation (`_agenerate`, qwen.py lines 384-391) -/

/-- One step of the `_agenerate` tool-call accumulation: when the incoming
`tool_calls` list is falsy (absent or empty) the accumulator is unchanged; on
first sight of a truthy list the accumulator becomes that list; afterwards the
incoming first entry's `arguments` text is appended onto the accumulated FIRST
entry's `arguments` (`tool_calls[0]['arguments'] += _tool_calls[0]['arguments']`),
with no inspection of the tool-call `id`. The `some []` accumulator case is
unreachable from an initial `none` (the source would raise `IndexError`). -/
def mergeToolCalls (tool_calls : Option (List ToolCall))
    (incoming : Option (List ToolCall)) : Option (List ToolCall) :=
  match incoming with
  | none => tool_calls
  | some [] => tool_calls
  | some (inc :: incRest) =>
      match tool_calls with
      | none => some (inc :: incRest)
      | some [] => some []
      | some (a :: rest) =>
          some ({ a with arguments := a.arguments ++ inc.arguments } :: rest)

/-- The tool-call accumulator over a whole stream, starting from `None`. -/
def streamToolCalls (chunks : List (Option (List ToolCall))) : Option (List ToolCall) :=
  chunks.foldl mergeToolCalls none

/-! ## Token counting (`_get_encoding_model` and
`get_num_tokens_from_messages`, qwen.py lines 456-470 and 480-510) -/

/-- A tiktoken encoding, abstracted to the only operation the source uses:
`len(encoding.encode(value))`. -/
structure Encoding where
  encodeLen : String → Nat

/-- Python `s.startswith(p)`, over the character sequences. -/
def strStartsWith (s p : String) : Bool :=
  p.data.isPrefixOf s.data

/-- `_get_encoding_model`: the `tiktoken_model_name` override takes precedence
over `model_name`; `tiktoken.encoding_for_model` is an abstract table, whose
`KeyError` (modelled as `none`) falls back to the `cl100k_base` encoding and
renames the resolved model to `"cl100k_base"`. -/
def get_encoding_model (encoding_for_model : String → Option Encoding)
    (cl100k_base : Encoding) (tiktoken_model_name : Option String)
    (model_name : String) : String × Encoding :=
  let model := tiktoken_model_name.getD model_name
  match encoding_for_model model with
  | some enc => (model, enc)
  | none => ("cl100k_base", cl100k_base)

/-- The key/value items of a wire message dict in insertion order, restricted
to string values. `function_call` and `tool_calls` hold non-string values, over
which the source's `encoding.encode(value)` would raise `TypeError`; their
presence yields `none`. -/
def wireItems (w : WireMessage) : Option (List (String × String)) :=
  match w.functionCall, w.toolCalls with
  | none, none =>
      some ([("role", w.role), ("content", w.content.getD "")] ++
        (match w.toolCallId with
         | some t => [("tool_call_id", t)]
         | none => []) ++
        (match w.name with
         | some n => [("name", n)]
         | none => []))
  | _, _ => none

/-- Failures of `get_num_tokens_from_messages`: `notImplemented` models the
`NotImplementedError` raised for any resolved model not starting with
`"chatglm"` (the spec's `UnsupportedTokenModelError`); `typeError` models
`encoding.encode` applied to a non-string field value. -/
inductive TokenCountError where
  | notImplemented (model : String)
  | typeError
deriving DecidableEq

/-- `get_num_tokens_from_messages`: resolve the encoding model; for a resolved
model starting with `"chatglm"`, add `tokens_per_message = 4` per message, the
encoded length of every field value, `tokens_per_name = -1` per `name` key, and
a final `3` priming the reply turn; any other resolved model raises before the
messages are inspected. -/
def get_num_tokens_from_messages (encoding_for_model : String → Option Encoding)
    (cl100k_base : Encoding) (tiktoken_model_name : Option String)
    (model_name : String) (messages : List Message) :
    Except TokenCountError Int :=
  let resolved := get_encoding_model encoding_for_model cl100k_base
    tiktoken_model_name model_name
  if strStartsWith resolved.1 "chatglm" then
    match (messages.map convert_message_to_dict).mapM wireItems with
    | none => .error .typeError
    | some dicts =>
        .ok ((dicts.foldl (fun num_tokens msg =>
                msg.foldl (fun n kv =>
                    n + (resolved.2.encodeLen kv.2 : Int) +
                      (if kv.1 = "name" then -1 else 0))
                  (num_tokens + 4))
              0) + 3)
  else
    .error (.notImplemented resolved.1)

/-- The spec's message-level counting formula, written from the spec's words
for comparison with `get_num_tokens_from_messages`: for each message a fixed
per-message overhead plus the token count of every field value encoded
individually, a fixed adjustment when a `name` field is present, and one final
overhead priming the reply turn. -/
def countMessageTokensSpec (enc : String → Nat)
    (tokens_per_message tokens_per_name reply_priming : Int)
    (dicts : List (List (String × String))) : Int :=
  (dicts.map (fun msg =>
    tokens_per_message + (msg.map (fun kv => (enc kv.2 : Int))).sum +
      (if (msg.map Prod.fst).contains "name" then tokens_per_name else 0))).sum
  + reply_priming

/-! ## Shared client configuration (`__init__` and `completion_with_retry`,
qwen.py lines 199-209 and 225-236)

Modelled from the spec: the `Requests` wrapper
(`bisheng_langchain.utils.requests`, not part of this repository's sources) is
"the authenticated transport client (credentials, connection pool) shared
read-only across calls after construction" — a record storing the header dict
it was constructed with. -/

/-- The transport client: its header dict, as an association list. -/
structure RequestsClient where
  headers : List (String × String)
deriving DecidableEq

/-- Client construction in `__init__` (raw-HTTP mode): the bearer-token
`Authorization` header and the JSON `Content-Type`. -/
def initClient (api_key : String) : RequestsClient :=
  RequestsClient.mk
    [("Authorization", "Bearer " ++ api_key), ("Content-Type", "application/json")]

/-- Python `dict.pop(key, default)`: the key's entry is removed. -/
def popHeader (c : RequestsClient) (k : String) : RequestsClient :=
  RequestsClient.mk (c.headers.filter (fun kv => kv.1 ≠ k))

/-- The only write `completion_with_retry` performs on the shared client:
`self.client.headers.pop('Accept', '')`. -/
def completionCallHeaderEffect (c : RequestsClient) : RequestsClient :=
  popHeader c "Accept"

/-! ## Theorems -/

/-- C10: a wire assistant message with a null (absent) `content` converts to an
`AIMessage` with empty-string content — `fromWire` succeeds rather than failing
or keeping the null — and re-encoding that message puts the empty string, not
null, back on the wire. -/
theorem C10_null_content_assistant (w : WireMessage) (hr : w.role = "assistant")
    (hc : w.content = none) :
    convert_dict_to_message w = some (.ai "" w.functionCall w.toolCalls none) ∧
    (convert_message_to_dict (.ai "" w.functionCall w.toolCalls none)).content =
      some "" := by
  constructor
  · simp [convert_dict_to_message, hr, hc]
  · simp [convert_message_to_dict]

theorem C10_null_content_assistant_witness :
    convert_dict_to_message { role := "assistant" } =
      some (.ai "" none none none) ∧
    (convert_message_to_dict (.ai "" none none none)).content = some "" :=
  C10_null_content_assistant { role := "assistant" } rfl rfl

/-- C9: a raw-HTTP response that carries neither the `DataInspectionFailed`
rejection code nor an `output` envelope makes `completion_with_retry` raise an
exception carrying the remote-supplied `message` text; no successful result is
produced. -/
theorem C9_missing_output_raises (rsp : RspDict) (m : String)
    (hc : rsp.code ≠ some "DataInspectionFailed") (ho : rsp.output = none)
    (hm : rsp.message = some m) :
    classifyResponse rsp = .error (.remote m) := by
  simp [classifyResponse, hc, ho, hm]

theorem C9_missing_output_raises_witness :
    classifyResponse { code := some "Throttled", message := some "busy" } =
      .error (.remote "busy") :=
  C9_missing_output_raises { code := some "Throttled", message := some "busy" }
    "busy" (by decide) rfl rfl

/-- C2: a synchronous generation whose raw response carries the
`DataInspectionFailed` rejection code yields a successful result with exactly
one generation, role `assistant`, content equal to the remote-supplied message
text, finish reason `"stop"`, and the fixed usage record
`input_tokens=1, output_tokens=1, total_tokens=2` (DashScope's names for the
prompt/completion token counts). -/
theorem C2_moderation_masking (rsp : RspDict) (m model_name : String)
    (hc : rsp.code = some "DataInspectionFailed") (hm : rsp.message = some m) :
    ∃ out usage, classifyResponse rsp = .ok (out, usage) ∧
      out.choices.map WireChoice.finish_reason = [some "stop"] ∧
      usage = some (TokenUsage.mk 1 1 2) ∧
      create_chat_result model_name out usage =
        some { generations := [ChatGeneration.mk (.ai m none none none)],
               token_usage := some (TokenUsage.mk 1 1 2),
               model_name := model_name } := by
  refine ⟨WireOutput.mk
      [{ finish_reason := some "stop",
         message := { role := "assistant", content := some m } }],
    some (TokenUsage.mk 1 1 2), ?_, rfl, rfl, ?_⟩
  · simp [classifyResponse, hc, hm]
  · simp [create_chat_result, convert_dict_to_message, List.mapM, List.mapM.loop]

theorem C2_moderation_masking_witness :
    ∃ out usage,
      classifyResponse { code := some "DataInspectionFailed",
                         message := some "blocked" } = .ok (out, usage) ∧
      out.choices.map WireChoice.finish_reason = [some "stop"] ∧
      usage = some (TokenUsage.mk 1 1 2) ∧
      create_chat_result "qwen-turbo" out usage =
        some { generations := [ChatGeneration.mk (.ai "blocked" none none none)],
               token_usage := some (TokenUsage.mk 1 1 2),
               model_name := "qwen-turbo" } :=
  C2_moderation_masking
    { code := some "DataInspectionFailed", message := some "blocked" }
    "blocked" "qwen-turbo" rfl rfl

/-- C5 counterexample: the round trip is NOT the identity on every message with
all optional fields populated — a user message carrying the optional `name`
metadata loses it, because `_convert_dict_to_message` never restores a wire
`name` into `additional_kwargs`. -/
theorem C5_roundtrip_counterexample :
    convert_dict_to_message (convert_message_to_dict (.human "hi" (some "bob"))) ≠
      some (.human "hi" (some "bob")) := by
  decide

/-- C5 (amended): the round trip `fromWire(toWire(m)) = m` holds for every
message variant — with `function_call`, `tool_calls` and `tool_call_id`
populated or absent, none of which are dropped — provided the
`additional_kwargs['name']` metadata is absent and a generic `ChatMessage` does
not use one of the five reserved role strings. -/
theorem C5_roundtrip_amended (m : Message) (hn : m.extraNameOf = none)
    (hs : m.passthroughSafe = true) :
    convert_dict_to_message (convert_message_to_dict m) = some m := by
  cases m with
  | human c n =>
      simp [Message.extraNameOf] at hn
      simp [convert_message_to_dict, convert_dict_to_message, hn]
  | ai c fc tc n =>
      simp [Message.extraNameOf] at hn
      simp [convert_message_to_dict, convert_dict_to_message, hn]
  | system c n =>
      simp [Message.extraNameOf] at hn
      simp [convert_message_to_dict, convert_dict_to_message, hn]
  | function c fname n =>
      simp [Message.extraNameOf] at hn
      simp [convert_message_to_dict, convert_dict_to_message, hn]
  | tool c tid n =>
      simp [Message.extraNameOf] at hn
      simp [convert_message_to_dict, convert_dict_to_message, hn]
  | chat r c n =>
      simp [Message.extraNameOf] at hn
      simp [Message.passthroughSafe, reservedRole] at hs
      obtain ⟨⟨⟨⟨h1, h2⟩, h3⟩, h4⟩, h5⟩ := hs
      simp [convert_message_to_dict, convert_dict_to_message, hn, h1, h2, h3, h4, h5]

theorem C5_roundtrip_amended_witness :
    convert_dict_to_message (convert_message_to_dict
      (.ai "x" (some (FunctionCall.mk "f" "a"))
        (some [ToolCall.mk "id1" "g" "args"]) none)) =
      some (.ai "x" (some (FunctionCall.mk "f" "a"))
        (some [ToolCall.mk "id1" "g" "args"]) none) :=
  C5_roundtrip_amended
    (.ai "x" (some (FunctionCall.mk "f" "a"))
      (some [ToolCall.mk "id1" "g" "args"]) none)
    rfl rfl

/-- C8: no synchronous raw-HTTP generation call changes the shared client
configuration: the only header write, popping `Accept`, is vacuous on the
headers `__init__` constructs (bearer-token `Authorization` and
`Content-Type`), so after any number of calls the client state equals its
state at construction. -/
theorem C8_client_config_preserved (api_key : String) (n : Nat) :
    completionCallHeaderEffect^[n] (initClient api_key) = initClient api_key := by
  induction n with
  | zero => rfl
  | succ n ih =>
      rw [Function.iterate_succ_apply', ih]
      simp [completionCallHeaderEffect, popHeader, initClient, List.filter]

theorem string_join_cons (a : String) (l : List String) :
    String.join (a :: l) = a ++ String.join l := by
  simp only [String.join_eq, List.map_cons, List.flatten_cons]
  rfl

/-- C1 counterexample: the streamed tool-call accumulator is NOT keyed by the
tool call's identity — after a first fragment under id `"A"`, a fragment under
the new id `"B"` does not initialize a new accumulator entry; its arguments are
appended onto the first (id `"A"`) entry, and no entry for `"B"` exists. -/
theorem C1_toolcall_merge_counterexample :
    streamToolCalls [some [ToolCall.mk "A" "f" "x"], some [ToolCall.mk "B" "g" "y"]] =
      some [ToolCall.mk "A" "f" "xy"] ∧
    ∀ tc ∈ [ToolCall.mk "A" "f" "xy"], tc.id ≠ "B" := by
  decide

theorem streamToolCalls_single_id (i nm : String) :
    ∀ (rest : List String) (s : String),
      List.foldl mergeToolCalls (some [ToolCall.mk i nm s])
        (rest.map (fun a => some [ToolCall.mk i nm a])) =
        some [ToolCall.mk i nm (s ++ String.join rest)] := by
  intro rest
  induction rest with
  | nil => intro s; simp [String.join]
  | cons a t ih =>
      intro s
      simp only [List.map_cons, List.foldl_cons, mergeToolCalls]
      rw [ih (s ++ a), string_join_cons, String.append_assoc]

/-- C1 (amended): the accumulator ignores tool-call ids — the first truthy
`tool_calls` list initializes it, and every later fragment's first entry has
its `arguments` text appended onto the FIRST accumulated entry, in arrival
order. For a stream whose fragments all carry one tool call under a single id,
the accumulated arguments are the concatenation of the fragments in arrival
order; in particular the fragments of the spec's example concatenate to the
full JSON text. -/
theorem C1_toolcall_merge_amended (i nm : String) (frags : List String)
    (h : frags ≠ []) :
    streamToolCalls (frags.map (fun a => some [ToolCall.mk i nm a])) =
      some [ToolCall.mk i nm (String.join frags)] := by
  cases frags with
  | nil => exact absurd rfl h
  | cons a t =>
      simp only [streamToolCalls, List.map_cons, List.foldl_cons, mergeToolCalls]
      rw [streamToolCalls_single_id i nm t a, string_join_cons]

theorem C1_toolcall_merge_amended_witness :
    streamToolCalls [some [ToolCall.mk "call1" "f" "\x7b\"a\":1"],
                     some [ToolCall.mk "call1" "f" ",\"b\":2\x7d"]] =
      some [ToolCall.mk "call1" "f" "\x7b\"a\":1,\"b\":2\x7d"] :=
  (C1_toolcall_merge_amended "call1" "f" ["\x7b\"a\":1", ",\"b\":2\x7d"]
    (by decide)).trans (by decide)

theorem sdkStreamFold_all_ok (chunks : List StreamChunk)
    (h : ∀ c ∈ chunks, c.status_code = 200) :
    ∀ (acc role : String),
      sdkStreamFold chunks acc role =
        .ok (acc ++ String.join (chunks.map (fun c => c.content.getD "")),
             roleCarry chunks role) := by
  induction chunks with
  | nil => intro acc role; simp [sdkStreamFold, roleCarry, String.join]
  | cons c rest ih =>
      intro acc role
      have hc : c.status_code = 200 := h c (List.mem_cons_self c rest)
      have hrest : ∀ x ∈ rest, x.status_code = 200 :=
        fun x hx => h x (List.mem_cons_of_mem c hx)
      simp only [sdkStreamFold, hc, if_pos rfl, List.map_cons]
      rw [ih hrest, string_join_cons, String.append_assoc]
      rfl

/-- C7: over successive successful chunks the streaming loop appends the
content tokens to the buffer in arrival order (the assembled content is the
concatenation of the chunks' tokens) and carries the role forward when a later
chunk omits it; in particular three chunks with tokens `"Hel"`, `"lo"`, `""`
assemble to `"Hello"`. -/
theorem C7_streaming_reassembly (chunks : List StreamChunk)
    (h : ∀ c ∈ chunks, c.status_code = 200) :
    sdkStreamFold chunks "" "assistant" =
      .ok (String.join (chunks.map (fun c => c.content.getD "")),
           roleCarry chunks "assistant") := by
  rw [sdkStreamFold_all_ok chunks h "" "assistant", String.empty_append]

theorem C7_streaming_reassembly_witness :
    sdkStreamFold
      [StreamChunk.mk 200 (some "assistant") (some "Hel") "" "",
       StreamChunk.mk 200 none (some "lo") "" "",
       StreamChunk.mk 200 none (some "") "" ""] "" "assistant" =
      .ok ("Hello", "assistant") :=
  (C7_streaming_reassembly
    [StreamChunk.mk 200 (some "assistant") (some "Hel") "" "",
     StreamChunk.mk 200 none (some "lo") "" "",
     StreamChunk.mk 200 none (some "") "" ""]
    (by decide)).trans (by decide)

theorem retryGo_always_fails (call : Nat → Except E A) (errs : Nat → E)
    (hfail : ∀ n, call n = .error (errs n)) :
    ∀ (r attempt : Nat),
      retryGo call attempt r = (.error (errs (attempt + r)), attempt + r) := by
  intro r
  induction r with
  | zero => intro attempt; simp [retryGo, hfail attempt]
  | succ r ih =>
      intro attempt
      rw [retryGo.eq_def, hfail attempt]
      simp only []
      rw [ih (attempt + 1)]
      have harith : attempt + 1 + r = attempt + (r + 1) := by omega
      rw [harith]

/-- C3: with `max_retries = k` (for `k ≥ 1`), a transport call that fails on
every invocation is invoked exactly `k` times, and the error delivered to the
caller is the `k`-th invocation's own error, re-raised unchanged
(tenacity `reraise=True`). -/
theorem C3_retry_bound (k : Nat) (call : Nat → Except E A) (errs : Nat → E)
    (hk : 1 ≤ k) (hfail : ∀ n, call n = .error (errs n)) :
    completion_with_retry_loop call k = (.error (errs k), k) := by
  unfold completion_with_retry_loop
  rw [retryGo_always_fails call errs hfail (k - 1) 1]
  have harith : 1 + (k - 1) = k := by omega
  rw [harith]

theorem C3_retry_bound_witness :
    completion_with_retry_loop (fun n => (.error n : Except Nat Unit)) 3 =
      (.error 3, 3) :=
  C3_retry_bound 3 (fun n => .error n) (fun n => n) (by decide) (fun _ => rfl)

/-- C4: the backoff delay inserted before attempt `i` (for every `i ≥ 2`)
equals `min(max_backoff, min_backoff * multiplier^(i-2))` with the decorator's
constants `min_backoff = 1`, `max_backoff = 20` and growth factor `2`; in
particular the delays before attempts 2, 3, 4, 5 are 1, 2, 4, 8 seconds. -/
theorem C4_backoff_growth :
    (∀ i, 2 ≤ i → backoffBefore i = min 20 (1 * 2 ^ (i - 2))) ∧
    backoffBefore 2 = 1 ∧ backoffBefore 3 = 2 ∧
    backoffBefore 4 = 4 ∧ backoffBefore 5 = 8 := by
  refine ⟨?_, by decide, by decide, by decide, by decide⟩
  intro i hi
  unfold backoffBefore wait_exponential
  have h1 : i - 1 - 1 = i - 2 := by omega
  rw [h1]
  have h2 : 1 ≤ 2 ^ (i - 2) := Nat.one_le_two_pow
  omega

theorem C4_backoff_growth_witness :
    backoffBefore 7 = min 20 (1 * 2 ^ (7 - 2)) :=
  C4_backoff_growth.1 7 (by decide)

theorem wireItems_fold (enc : String → Nat) (w : WireMessage)
    (items : List (String × String)) (h : wireItems w = some items) (acc : Int) :
    items.foldl (fun n kv => n + (enc kv.2 : Int) +
        (if kv.1 = "name" then -1 else 0)) acc =
      acc + (items.map (fun kv => (enc kv.2 : Int))).sum +
        (if (items.map Prod.fst).contains "name" then -1 else 0) := by
  rcases w with ⟨role, content, name, fc, tc, tcid⟩
  cases fc with
  | some f => simp [wireItems] at h
  | none =>
    cases tc with
    | some t => simp [wireItems] at h
    | none =>
      cases tcid <;> cases name <;>
        (simp [wireItems] at h; subst h; simp [List.foldl, List.contains]; ring)

theorem tokens_fold_spec (enc : String → Nat) :
    ∀ (msgs : List Message) (dicts : List (List (String × String))),
      (msgs.map convert_message_to_dict).mapM wireItems = some dicts →
      ∀ acc : Int,
        dicts.foldl (fun num_tokens msg =>
            msg.foldl (fun n kv => n + (enc kv.2 : Int) +
              (if kv.1 = "name" then -1 else 0)) (num_tokens + 4)) acc =
          acc + (dicts.map (fun msg =>
            4 + (msg.map (fun kv => (enc kv.2 : Int))).sum +
              (if (msg.map Prod.fst).contains "name" then -1 else 0))).sum := by
  intro msgs
  induction msgs with
  | nil =>
      intro dicts h acc
      simp only [List.map_nil, List.mapM_nil, pure, Option.some.injEq] at h
      subst h
      simp
  | cons m rest ih =>
      intro dicts h acc
      rw [List.map_cons, List.mapM_cons] at h
      cases hw : wireItems (convert_message_to_dict m) with
      | none => rw [hw] at h; simp at h
      | some d =>
          rw [hw] at h
          cases hrest : (rest.map convert_message_to_dict).mapM wireItems with
          | none => rw [hrest] at h; simp at h
          | some ds =>
              rw [hrest] at h
              simp only [Option.bind_eq_bind, Option.some_bind, pure,
                Option.some.injEq] at h
              subst h
              simp only [List.foldl_cons, List.map_cons, List.sum_cons]
              rw [wireItems_fold enc _ d hw (acc + 4), ih ds hrest]
              ring

/-- C6: when the resolved tokenizer model belongs to the `chatglm` family —
the only family for which the source declares a per-message overhead — the
message-level count equals the spec formula (per-message overhead 4, every
field value encoded individually, adjustment −1 when a `name` field is
present, and a final reply-priming overhead 3); for every other resolved
model the operation fails with the unsupported-model error instead of
approximating. -/
theorem C6_token_counting (encoding_for_model : String → Option Encoding)
    (cl100k_base : Encoding) (tiktoken_model_name : Option String)
    (model_name : String) (messages : List Message) :
    (strStartsWith (get_encoding_model encoding_for_model cl100k_base
        tiktoken_model_name model_name).1 "chatglm" = true →
      ∀ dicts,
        (messages.map convert_message_to_dict).mapM wireItems = some dicts →
        get_num_tokens_from_messages encoding_for_model cl100k_base
            tiktoken_model_name model_name messages =
          .ok (countMessageTokensSpec
            (get_encoding_model encoding_for_model cl100k_base
              tiktoken_model_name model_name).2.encodeLen 4 (-1) 3 dicts)) ∧
    (strStartsWith (get_encoding_model encoding_for_model cl100k_base
        tiktoken_model_name model_name).1 "chatglm" = false →
      get_num_tokens_from_messages encoding_for_model cl100k_base
          tiktoken_model_name model_name messages =
        .error (.notImplemented (get_encoding_model encoding_for_model
          cl100k_base tiktoken_model_name model_name).1)) := by
  constructor
  · intro hs dicts hd
    simp only [get_num_tokens_from_messages, hs, if_pos, hd]
    rw [tokens_fold_spec _ messages dicts hd 0]
    simp only [countMessageTokensSpec, Except.ok.injEq]
    ring
  · intro hs
    simp [get_num_tokens_from_messages, hs]

theorem C6_token_counting_witness :
    get_num_tokens_from_messages (fun _ => some (Encoding.mk String.length))
      (Encoding.mk String.length) none "chatglm-std" [.human "ab" none] =
      .ok 13 :=
  ((C6_token_counting (fun _ => some (Encoding.mk String.length))
      (Encoding.mk String.length) none "chatglm-std" [.human "ab" none]).1
    (by decide) [[("role", "user"), ("content", "ab")]] (by decide)).trans
    (by decide)
